import Mathlib

/-!
Shallow embedding of the chat relay:
* `src/src/app/lib/gemini.tsx` — `getGeminiResponse`: shapes the provider call
  (single-shot `generateContent` vs stateful `startChat`+`sendMessage`) and
  normalizes provider failures.
* `src/src/app/api/chat/route.ts` — `POST /api/chat`: JSON parse, validation,
  provider invocation, error normalization.
* `src/unnamed/part_000` — client `sendMessage`: single-flight guard, user-turn
  append, dispatch-outcome handling.

The external Gemini SDK is opaque: it is modelled as an oracle
`ProviderCall → Except String String` (the `Except.error` case is the SDK
throwing). JavaScript dynamic values reaching the route are modelled by
`JsValue`, with JS truthiness made explicit.
-/

/-- Role vocabulary of the wire history (`MessageHistory.role` in gemini.tsx). -/
inductive Role where
  | user
  | assistant
deriving DecidableEq, Repr

/-- The `MessageHistory` record of gemini.tsx: `{role: "user"|"assistant", content: string}`. -/
structure MessageHistory where
  role : Role
  content : String
deriving DecidableEq, Repr

/-- Provider-side role vocabulary (`GeminiMessage.role`): "user" | "model". -/
inductive GRole where
  | user
  | model
deriving DecidableEq, Repr

/-- The `GeminiMessage` record of gemini.tsx: `{role, parts: {text: string}[]}`;
`parts` is kept as the list of the `text` fields. -/
structure GeminiMessage where
  role : GRole
  parts : List String
deriving DecidableEq, Repr

/-- The `GenerationConfig` record of gemini.tsx. Temperature and top-P are exact rationals. -/
structure GenerationConfig where
  temperature : ℚ
  topK : ℕ
  topP : ℚ
  maxOutputTokens : ℕ
deriving DecidableEq, Repr

/-- The constant generation configuration built in the non-empty-history branch
of `getGeminiResponse` (gemini.tsx lines 57-62). -/
def fixedGenerationConfig : GenerationConfig :=
  { temperature := 7/10, topK := 40, topP := 95/100, maxOutputTokens := 1024 }

/-- The synthetic model acknowledgement text hard-coded at gemini.tsx line 50. -/
def ackText : String :=
  "I understand. I'll maintain context from our conversation and provide helpful responses."

/-- The two capabilities of the opaque provider: single-shot
`model.generateContent(prompt)` (no generation config is attached on this path)
and `model.startChat({history, generationConfig})` followed by
`chat.sendMessage(message)`. -/
inductive ProviderCall where
  | generateContent (prompt : String)
  | startChatSend (history : List GeminiMessage) (config : GenerationConfig)
      (message : String)
deriving DecidableEq, Repr

/-- The generation config attached to a provider call, when one is. -/
def callConfig : ProviderCall → Option GenerationConfig
  | .generateContent _ => none
  | .startChatSend _ c _ => some c

/-- JS truthiness of `systemPrompt : string | null` — the guard
`if (systemPrompt)` is false for `null` and for the empty string. -/
def optTruthy : Option String → Bool
  | none => false
  | some s => s ≠ ""

/-- The `.map` at gemini.tsx lines 35-38:
`{role: msg.role === "assistant" ? "model" : "user", parts: [{text: msg.content}]}`. -/
def toGeminiMessage (msg : MessageHistory) : GeminiMessage :=
  { role := if msg.role = Role.assistant then GRole.model else GRole.user,
    parts := [msg.content] }

/-- The provider call issued by `getGeminiResponse` (gemini.tsx lines 33-83):
non-empty history → `startChat` seeded with `history.slice(0,-1)` mapped to
provider roles, prefixed with a synthetic user/model pair when `systemPrompt`
is truthy, then `sendMessage(message)`; empty history → single-shot
`generateContent` on `message`, prefixed by the system prompt when truthy. -/
def geminiCall (message : String) (history : List MessageHistory)
    (systemPrompt : Option String) : ProviderCall :=
  if history.length > 0 then
    let chatHistory : List GeminiMessage := history.dropLast.map toGeminiMessage
    let initialHistory : List GeminiMessage :=
      if optTruthy systemPrompt then
        { role := GRole.user, parts := [systemPrompt.getD ""] }
          :: { role := GRole.model, parts := [ackText] }
          :: chatHistory
      else chatHistory
    ProviderCall.startChatSend initialHistory fixedGenerationConfig message
  else
    let prompt : String :=
      if optTruthy systemPrompt then
        systemPrompt.getD "" ++ "\n\nUser: " ++ message
      else message
    ProviderCall.generateContent prompt

/-- The function `getGeminiResponse` with the SDK abstracted as `provider`: any provider
exception is caught and re-thrown as `Error("Failed to get response from
Gemini")` (gemini.tsx lines 84-87). -/
def getGeminiResponse (provider : ProviderCall → Except String String)
    (message : String) (history : List MessageHistory)
    (systemPrompt : Option String) : Except String String :=
  match provider (geminiCall message history systemPrompt) with
  | Except.ok t => Except.ok t
  | Except.error _ => Except.error "Failed to get response from Gemini"

/-! ## The route: `POST /api/chat` (route.ts)

The parsed JSON body is dynamically typed; `JsValue` models the JavaScript
values the handler inspects, with truthiness, `typeof`/`Array.isArray` tests
and field access made explicit. -/

/-- A JavaScript value as the route sees it (`undefined` marks an absent
field). Numbers are kept as integers: no claim involves fractional numerics. -/
inductive JsValue where
  | null
  | undefined
  | bool (b : Bool)
  | num (n : ℤ)
  | str (s : String)
  | arr (xs : List JsValue)
  | obj (fields : List (String × JsValue))

/-- JS truthiness: `null`, `undefined`, `false`, `0`, `""` are falsy; arrays
and objects are always truthy. -/
def JsValue.truthy : JsValue → Bool
  | .null => false
  | .undefined => false
  | .bool b => b
  | .num n => n ≠ 0
  | .str s => s ≠ ""
  | .arr _ => true
  | .obj _ => true

/-- Test `typeof v === "string"`. -/
def JsValue.isStr : JsValue → Bool
  | .str _ => true
  | _ => false

/-- Test `Array.isArray(v)`. -/
def JsValue.isArr : JsValue → Bool
  | .arr _ => true
  | _ => false

/-- Test `typeof v === "object"` (true for objects, arrays and `null`). -/
def JsValue.isObjectType : JsValue → Bool
  | .null => true
  | .arr _ => true
  | .obj _ => true
  | _ => false

/-- Property access `v.k`: `undefined` unless `v` is an object with the key. -/
def jsGetField (v : JsValue) (k : String) : JsValue :=
  match v with
  | .obj fields => ((fields.find? (fun p => p.1 = k)).map (fun p => p.2)).getD .undefined
  | _ => .undefined

/-- Test `v.length > 0` as the route evaluates it (arrays and strings have a
numeric `length`; on anything else `undefined > 0` is false). -/
def jsLenPos : JsValue → Bool
  | .arr xs => xs.length > 0
  | .str s => s.length > 0
  | _ => false

/-- The parsed request body; absent optional fields are `JsValue.undefined`. -/
structure RequestBody where
  message : JsValue
  history : JsValue
  systemPrompt : JsValue

/-- Destructuring default `history = []`: applies only when the field is
`undefined` (`null`, `false`, `0`, `""` are kept as-is). -/
def jsDefault (v : JsValue) : JsValue :=
  match v with
  | .undefined => .arr []
  | x => x

/-- Validation rule 1 (route.ts line 26): `!message || typeof message !== "string"`. -/
def messageInvalid (v : JsValue) : Bool :=
  !v.truthy || !v.isStr

/-- Validation rule 2 guard (route.ts line 34): `history && !Array.isArray(history)`. -/
def historyNotArray (v : JsValue) : Bool :=
  v.truthy && !v.isArr

/-- Test `item !== null`. -/
def JsValue.isNull : JsValue → Bool
  | .null => true
  | _ => false

/-- The per-item predicate of the `history.every` at route.ts lines 43-50:
`typeof item === "object" && item !== null && typeof item.role === "string" &&
(item.role === "user" || item.role === "assistant") &&
typeof item.content === "string"`. -/
def validHistoryItem (item : JsValue) : Bool :=
  item.isObjectType && !item.isNull
    && (match jsGetField item "role" with
        | .str s => s = "user" || s = "assistant"
        | _ => false)
    && (jsGetField item "content").isStr

/-- Validation rule 3 guard (route.ts lines 42-57): runs only when `history`
is truthy with positive length, and fails when some item is invalid. -/
def historyItemsBad (v : JsValue) : Bool :=
  v.truthy && jsLenPos v
    && !(match v with
         | .arr xs => xs.all validHistoryItem
         | _ => true)

/-- The typed string behind a value that passed rule 1. -/
def jsAsStr : JsValue → String
  | .str s => s
  | _ => ""

/-- One validated history item as the `MessageHistory` record
`getGeminiResponse` consumes (role "assistant" maps to `assistant`). -/
def jsToHistoryItem (item : JsValue) : MessageHistory :=
  { role := match jsGetField item "role" with
            | .str "assistant" => Role.assistant
            | _ => Role.user,
    content := jsAsStr (jsGetField item "content") }

/-- The history value handed to `getGeminiResponse`. A falsy non-array value
(`null`, `false`, `0`, `""`) behaves exactly like the empty list there, since
`getGeminiResponse` guards on `history && history.length > 0`. -/
def jsToHistory : JsValue → List MessageHistory
  | .arr xs => xs.map jsToHistoryItem
  | _ => []

/-- The `systemPrompt` field at the typed boundary of `getGeminiResponse`
(`string | null`): a string passes through, an absent field is `null`. -/
def jsToOptStr : JsValue → Option String
  | .str s => some s
  | _ => none

/-- A response body: `{reply: ...}` or `{error: ...}`. -/
inductive ApiBody where
  | reply (s : String)
  | error (s : String)
deriving DecidableEq, Repr

/-- The `POST` handler of route.ts as a function from the parse outcome
(`Except.error` = `req.json()` threw, with the thrown `Error`'s message) and
the provider oracle to the HTTP status and JSON body. The parse happens inside
the `try`, so its failure reaches the generic `catch` (500), as does the
`Error` re-thrown by `getGeminiResponse`. -/
def POST (parsed : Except String RequestBody)
    (provider : ProviderCall → Except String String) : ℕ × ApiBody :=
  match parsed with
  | Except.error e => (500, ApiBody.error e)
  | Except.ok body =>
    let history := jsDefault body.history
    if messageInvalid body.message then
      (400, ApiBody.error "Message is required and must be a string")
    else if historyNotArray history then
      (400, ApiBody.error "History must be an array")
    else if historyItemsBad history then
      (400, ApiBody.error "Invalid history format")
    else
      match getGeminiResponse provider (jsAsStr body.message)
              (jsToHistory history) (jsToOptStr body.systemPrompt) with
      | Except.ok reply => (200, ApiBody.reply reply)
      | Except.error e => (500, ApiBody.error e)

/-! ## The client: `sendMessage` (part_000)

The `fetch` round trip is abstracted as a `FetchResult`; the state transition
on `messages`/`input`/`isLoading` is modelled exactly. Timestamps are opaque
strings passed in (`now1` for the user turn, `now2` for the reply turn). -/

/-- A client `Message`: role, text, timestamp, optional error flag. -/
structure Message where
  role : Role
  text : String
  timestamp : String
  isError : Bool
deriving DecidableEq, Repr

/-- The fields of the parsed `/api/chat` response body the client inspects:
`error` (checked by key presence, `"error" in data`) and `reply`. -/
structure RespBody where
  error : Option String
  reply : Option String
deriving DecidableEq, Repr

/-- Outcome of the `fetch`: the promise rejected (network failure), or a
response arrived with `res.ok` and a parsed body. -/
inductive FetchResult where
  | reject
  | resp (ok : Bool) (body : RespBody)
deriving DecidableEq, Repr

/-- The reply text `sendMessage` extracts, or `none` when any of its checks
throws: `!res.ok`, `"error" in data`, or `!data.reply` (which also rejects an
empty reply string, since `""` is falsy). -/
def processFetch : FetchResult → Option String
  | .reject => none
  | .resp ok body =>
    if !ok then none
    else if body.error.isSome then none
    else match body.reply with
      | none => none
      | some s => if s = "" then none else some s

/-- The fixed text of the synthetic error turn (part_000 line 130). -/
def clientErrorText : String :=
  "Sorry, there was an error processing your request. Please try again."

/-- Client component state: the session's messages, the input box, and the
single-flight flag. -/
structure ChatState where
  messages : List Message
  input : String
  isLoading : Bool
deriving DecidableEq, Repr

/-- JS `String.prototype.trim`, modelled on the character list: strip leading
and trailing whitespace. (Lean's ASCII whitespace set stands in for the JS
one; no claim depends on the exotic members of the JS set.) -/
def jsTrim (s : String) : String :=
  String.mk (((s.data.dropWhile Char.isWhitespace).reverse.dropWhile
    Char.isWhitespace).reverse)

/-- The single-flight guard at part_000 line 69:
`if (!input.trim() || isLoading) return`. -/
def sendGuard (st : ChatState) : Bool :=
  jsTrim st.input = "" || st.isLoading

/-- The state right after the user turn is appended and the dispatch begins
(part_000 lines 71-80): the trimmed input becomes a user turn, the input box
is cleared, `isLoading` is set. -/
def afterUserAppend (st : ChatState) (now1 : String) : ChatState :=
  { messages := st.messages ++ [⟨Role.user, jsTrim st.input, now1, false⟩],
    input := "",
    isLoading := true }

/-- The client `sendMessage`: no-op under the guard; otherwise append the user turn, run
the dispatch, then append either the assistant reply turn or the synthetic
error turn (`isError := true`), and clear `isLoading` in the `finally`. -/
def sendMessage (st : ChatState) (fr : FetchResult) (now1 now2 : String) : ChatState :=
  if sendGuard st then st
  else
    let st1 := afterUserAppend st now1
    match processFetch fr with
    | some reply =>
      { st1 with
        messages := st1.messages ++ [⟨Role.assistant, reply, now2, false⟩],
        isLoading := false }
    | none =>
      { st1 with
        messages := st1.messages ++ [⟨Role.assistant, clientErrorText, now2, true⟩],
        isLoading := false }

/-! ## Helper lemmas -/

/-- Rule 1 fires exactly on non-strings and the empty string. -/
lemma messageInvalid_iff (v : JsValue) :
    messageInvalid v = true ↔ (v.isStr = false ∨ v = JsValue.str "") := by
  cases v <;> simp [messageInvalid, JsValue.truthy, JsValue.isStr]

/-- A falsy history value converts to the empty typed history. -/
lemma jsToHistory_of_falsy (v : JsValue) (hv : v.truthy = false) :
    jsToHistory v = [] := by
  cases v <;> simp_all [JsValue.truthy, jsToHistory]

/-- A falsy history value passes the rule-2 and rule-3 guards. -/
lemma guards_of_falsy (v : JsValue) (hv : v.truthy = false) :
    historyNotArray v = false ∧ historyItemsBad v = false := by
  simp [historyNotArray, historyItemsBad, hv]

/-! ## The claims -/

/-- C1 counterexample: with `history = []`, `systemPrompt = "X"`, `message =
"hi"`, the single-shot prompt the code builds is `"X\n\nUser: hi"`, which is
not the bare concatenation `"X" ++ "\n\n" ++ "hi"` — the literal `"User: "` is
inserted between the system prompt and the message. -/
theorem C1_counterexample :
    geminiCall "hi" [] (some "X") = ProviderCall.generateContent "X\n\nUser: hi"
    ∧ "X\n\nUser: hi" ≠ "X" ++ "\n\n" ++ "hi" := by
  exact ⟨rfl, by decide⟩

/-- C1 (amended): on the empty-history path the call is always the single-shot
`generateContent` (never the stateful chat); its prompt is
`s ++ "\n\nUser: " ++ m` for a non-empty system prompt `s`, and exactly `m`
when the system prompt is absent — or empty, since the code's truthiness test
treats `""` like `null`. -/
theorem C1_single_turn_prompt (m s : String) (hs : s ≠ "") :
    geminiCall m [] (some s) = ProviderCall.generateContent (s ++ "\n\nUser: " ++ m)
    ∧ geminiCall m [] none = ProviderCall.generateContent m
    ∧ geminiCall m [] (some "") = ProviderCall.generateContent m := by
  refine ⟨?_, rfl, rfl⟩
  simp [geminiCall, optTruthy, hs]

/-- Witness for C1 at `m = "hi"`, `s = "X"`. -/
theorem C1_single_turn_prompt_witness :
    geminiCall "hi" [] (some "X") = ProviderCall.generateContent ("X" ++ "\n\nUser: " ++ "hi") :=
  (C1_single_turn_prompt "hi" "X" (by decide)).1

/-- C2 counterexample: an empty-string system prompt is supplied (non-null)
but the synthetic user/model pair is not prepended — with
`h = [user "a", user "b"]` (length 2) the seed history is `[user ["a"]]` of
length 1 = `|h| - 1`, not `|h| + 1` as the claim requires when a system prompt
is supplied. -/
theorem C2_counterexample :
    geminiCall "m" [⟨Role.user, "a"⟩, ⟨Role.user, "b"⟩] (some "")
      = ProviderCall.startChatSend [⟨GRole.user, ["a"]⟩] fixedGenerationConfig "m"
    ∧ ([⟨GRole.user, ["a"]⟩] : List GeminiMessage).length
        ≠ ([⟨Role.user, "a"⟩, ⟨Role.user, "b"⟩] : List MessageHistory).length + 1 := by
  exact ⟨rfl, by decide⟩

/-- C2 (amended): on a non-empty history `h` the code makes the stateful
multi-turn call with the new message as the final turn; the seed history is
exactly `h.dropLast` mapped entrywise by `toGeminiMessage`
(`assistant`→model, `user`→user, content unchanged), of length `|h| - 1`;
when a *non-empty* system prompt is supplied (the truthiness test skips
`""`), the synthetic user-prompt turn and model-acknowledgement turn are
prepended, giving length `|h| + 1`. -/
theorem C2_multi_turn_seed (m : String) (h : List MessageHistory) (hne : h ≠ []) :
    (geminiCall m h none
      = ProviderCall.startChatSend (h.dropLast.map toGeminiMessage) fixedGenerationConfig m)
    ∧ (h.dropLast.map toGeminiMessage).length = h.length - 1
    ∧ ∀ s : String, s ≠ "" →
        (geminiCall m h (some s)
          = ProviderCall.startChatSend
              (⟨GRole.user, [s]⟩ :: ⟨GRole.model, [ackText]⟩ :: h.dropLast.map toGeminiMessage)
              fixedGenerationConfig m)
        ∧ (⟨GRole.user, [s]⟩ :: ⟨GRole.model, [ackText]⟩
            :: h.dropLast.map toGeminiMessage : List GeminiMessage).length = h.length + 1 := by
  have hlen : 0 < h.length := List.length_pos.mpr hne
  refine ⟨?_, ?_, fun s hs => ⟨?_, ?_⟩⟩
  · simp [geminiCall, optTruthy, hlen]
  · simp [List.length_dropLast]
  · simp [geminiCall, optTruthy, hlen, hs]
  · simp [List.length_dropLast]
    omega

/-- Witness for C2 at `h = [user "u1", assistant "a1", user "m2"]`,
`s = "X"`, `m = "m2"`. -/
theorem C2_multi_turn_seed_witness :
    geminiCall "m2" [⟨Role.user, "u1"⟩, ⟨Role.assistant, "a1"⟩, ⟨Role.user, "m2"⟩] (some "X")
      = ProviderCall.startChatSend
          [⟨GRole.user, ["X"]⟩, ⟨GRole.model, [ackText]⟩,
           ⟨GRole.user, ["u1"]⟩, ⟨GRole.model, ["a1"]⟩]
          fixedGenerationConfig "m2" :=
  ((C2_multi_turn_seed "m2"
      [⟨Role.user, "u1"⟩, ⟨Role.assistant, "a1"⟩, ⟨Role.user, "m2"⟩]
      (by decide)).2.2 "X" (by decide)).1

/-- C3 counterexample: on the empty-history path the code calls
`model.generateContent(prompt)` with no generation config attached at all, so
that call does not carry temperature 0.7 / topK 40 / topP 0.95 /
maxOutputTokens 1024. -/
theorem C3_counterexample :
    callConfig (geminiCall "hi" [] none) = none
    ∧ (none : Option GenerationConfig) ≠ some fixedGenerationConfig := by
  exact ⟨rfl, by simp⟩

/-- C3 (amended): the fixed generation parameters (temperature 0.7, topK 40,
topP 0.95, maxOutputTokens 1024) are attached exactly on the non-empty-history
multi-turn path; the empty-history single-shot path attaches no generation
config (provider defaults apply there). -/
theorem C3_generation_config (m : String) (h : List MessageHistory) (sp : Option String) :
    (h ≠ [] → callConfig (geminiCall m h sp) = some fixedGenerationConfig)
    ∧ (h = [] → callConfig (geminiCall m h sp) = none) := by
  constructor
  · intro hne
    have hlen : 0 < h.length := List.length_pos.mpr hne
    simp [geminiCall, callConfig, hlen]
  · intro he
    subst he
    simp [geminiCall, callConfig]

/-- Witness for C3: the multi-turn call at a one-entry history carries the
fixed config; the single-shot call at the empty history carries none. -/
theorem C3_generation_config_witness :
    callConfig (geminiCall "hi" [⟨Role.user, "a"⟩] none) = some fixedGenerationConfig
    ∧ callConfig (geminiCall "hi" [] none) = none :=
  ⟨(C3_generation_config "hi" [⟨Role.user, "a"⟩] none).1 (by decide),
   (C3_generation_config "hi" [] none).2 rfl⟩

/-- C4 counterexample: `message = ""` **is** a string, yet the guard
`!message || typeof message !== "string"` rejects it (the empty string is
falsy), so the endpoint returns the 400 `INVALID_MESSAGE` response instead of
proceeding. -/
theorem C4_counterexample :
    (JsValue.str "").isStr = true
    ∧ POST (Except.ok ⟨JsValue.str "", JsValue.undefined, JsValue.undefined⟩)
        (fun _ => Except.ok "r")
      = (400, ApiBody.error "Message is required and must be a string") := by
  exact ⟨rfl, rfl⟩

/-- C4 (amended): for a parseable body, the endpoint returns 400
`{error: "Message is required and must be a string"}` iff the `message` field
is not a string **or** is the (falsy) empty string; every non-empty string
passes this first rule and yields a different outcome. -/
theorem C4_message_validation (b : RequestBody)
    (provider : ProviderCall → Except String String) :
    POST (Except.ok b) provider = (400, ApiBody.error "Message is required and must be a string")
      ↔ (b.message.isStr = false ∨ b.message = JsValue.str "") := by
  rw [← messageInvalid_iff]
  constructor
  · intro hP
    by_contra hC
    rw [Bool.not_eq_true] at hC
    unfold POST at hP
    simp only [hC, Bool.false_eq_true, if_false] at hP
    split at hP
    · simp at hP
    · split at hP
      · simp at hP
      · split at hP
        · simp at hP
        · simp at hP
  · intro hm
    unfold POST
    simp [hm]

/-- Witness for C4 at the body `{message: "", history: [], systemPrompt: absent}`. -/
theorem C4_message_validation_witness :
    POST (Except.ok ⟨JsValue.str "", JsValue.arr [], JsValue.undefined⟩)
        (fun _ => Except.ok "r")
      = (400, ApiBody.error "Message is required and must be a string") :=
  (C4_message_validation ⟨JsValue.str "", JsValue.arr [], JsValue.undefined⟩
      (fun _ => Except.ok "r")).mpr (Or.inr rfl)

/-- C5 counterexample: `history = false` — a boolean, one of the claim's own
example values — is present and not an array, yet the guard
`history && !Array.isArray(history)` skips every falsy value, so no 400 is
returned and the provider **is** invoked (its reply `"r"` comes back as 200). -/
theorem C5_counterexample :
    POST (Except.ok ⟨JsValue.str "hi", JsValue.bool false, JsValue.undefined⟩)
        (fun _ => Except.ok "r")
      = (200, ApiBody.reply "r") := by
  exact rfl

/-- C5 (amended): after rule 1 passes, a present history that is **truthy**
and not an array yields 400 `{error: "History must be an array"}`
independently of the provider; a **falsy** non-array history (`null`, `false`,
`0`, `""`) bypasses both history rules and the request proceeds to the
provider exactly as if the history were empty. -/
theorem C5_history_array_validation (b : RequestBody)
    (provider : ProviderCall → Except String String)
    (hm : messageInvalid b.message = false) :
    ((jsDefault b.history).truthy = true → (jsDefault b.history).isArr = false →
        POST (Except.ok b) provider = (400, ApiBody.error "History must be an array"))
    ∧ ((jsDefault b.history).truthy = false →
        POST (Except.ok b) provider
          = match getGeminiResponse provider (jsAsStr b.message) []
                    (jsToOptStr b.systemPrompt) with
            | Except.ok reply => (200, ApiBody.reply reply)
            | Except.error e => (500, ApiBody.error e)) := by
  constructor
  · intro ht ha
    unfold POST
    simp [hm, historyNotArray, ht, ha]
  · intro ht
    obtain ⟨h2, h3⟩ := guards_of_falsy _ ht
    unfold POST
    simp [hm, h2, h3, jsToHistory_of_falsy _ ht]

/-- Witness for C5: `history = "x"` (truthy, not an array) is rejected with
the 400, and `history = false` (falsy) reaches the provider. -/
theorem C5_history_array_validation_witness :
    POST (Except.ok ⟨JsValue.str "hi", JsValue.str "x", JsValue.undefined⟩)
        (fun _ => Except.ok "r")
      = (400, ApiBody.error "History must be an array")
    ∧ POST (Except.ok ⟨JsValue.str "hi", JsValue.bool false, JsValue.undefined⟩)
        (fun _ => Except.error "boom")
      = (500, ApiBody.error "Failed to get response from Gemini") :=
  ⟨(C5_history_array_validation ⟨JsValue.str "hi", JsValue.str "x", JsValue.undefined⟩
      (fun _ => Except.ok "r") rfl).1 rfl rfl,
   (C5_history_array_validation ⟨JsValue.str "hi", JsValue.bool false, JsValue.undefined⟩
      (fun _ => Except.error "boom") rfl).2 rfl⟩

/-- C6: whenever the provider raises on the call `getGeminiResponse` issues
(single-shot or multi-turn alike), `getGeminiResponse` throws exactly
`Error("Failed to get response from Gemini")` — the provider error never
escapes — and any validated request reaching that call gets
`500 {error: "Failed to get response from Gemini"}` from `POST`, never a 400
or a 200. -/
theorem C6_provider_error_normalized (m : String) (h : List MessageHistory)
    (sp : Option String) (provider : ProviderCall → Except String String) (e : String)
    (hp : provider (geminiCall m h sp) = Except.error e) :
    getGeminiResponse provider m h sp
      = Except.error "Failed to get response from Gemini"
    ∧ ∀ b : RequestBody,
        messageInvalid b.message = false →
        historyNotArray (jsDefault b.history) = false →
        historyItemsBad (jsDefault b.history) = false →
        jsAsStr b.message = m →
        jsToHistory (jsDefault b.history) = h →
        jsToOptStr b.systemPrompt = sp →
        POST (Except.ok b) provider
          = (500, ApiBody.error "Failed to get response from Gemini") := by
  have hg : getGeminiResponse provider m h sp
      = Except.error "Failed to get response from Gemini" := by
    simp [getGeminiResponse, hp]
  refine ⟨hg, fun b h1 h2 h3 hbm hbh hbs => ?_⟩
  unfold POST
  simp [h1, h2, h3, hbm, hbh, hbs, hg]

/-- Witness for C6: a provider that always raises, at the request
`{message: "hi"}` with no history and no system prompt. -/
theorem C6_provider_error_normalized_witness :
    getGeminiResponse (fun _ => Except.error "quota exceeded") "hi" [] none
      = Except.error "Failed to get response from Gemini"
    ∧ POST (Except.ok ⟨JsValue.str "hi", JsValue.undefined, JsValue.undefined⟩)
        (fun _ => Except.error "quota exceeded")
      = (500, ApiBody.error "Failed to get response from Gemini") :=
  ⟨(C6_provider_error_normalized "hi" [] none
      (fun _ => Except.error "quota exceeded") "quota exceeded" rfl).1,
   (C6_provider_error_normalized "hi" [] none
      (fun _ => Except.error "quota exceeded") "quota exceeded" rfl).2
     ⟨JsValue.str "hi", JsValue.undefined, JsValue.undefined⟩
     rfl rfl rfl rfl rfl rfl⟩

/-- C7: when the guard passes and the dispatch fails in any way (`processFetch
= none` covers rejection, `!res.ok`, an `error` field, and a missing/falsy
`reply`), the session becomes exactly the old messages, then the user's own
turn (trimmed input), then one synthetic assistant turn with the fixed error
text and `isError = true` — growth by exactly two turns, nothing else modified
or removed. -/
theorem C7_error_turn_appended (st : ChatState) (fr : FetchResult) (now1 now2 : String)
    (hg : sendGuard st = false) (hf : processFetch fr = none) :
    (sendMessage st fr now1 now2).messages
      = st.messages ++ [⟨Role.user, jsTrim st.input, now1, false⟩,
                        ⟨Role.assistant, clientErrorText, now2, true⟩]
    ∧ (sendMessage st fr now1 now2).messages.length = st.messages.length + 2 := by
  have hmsg : (sendMessage st fr now1 now2).messages
      = st.messages ++ [⟨Role.user, jsTrim st.input, now1, false⟩,
                        ⟨Role.assistant, clientErrorText, now2, true⟩] := by
    simp [sendMessage, hg, hf, afterUserAppend]
  exact ⟨hmsg, by simp [hmsg]⟩

/-- Witness for C7 at `st = ⟨[], "hi", false⟩` with a rejected fetch. -/
theorem C7_error_turn_appended_witness :
    (sendMessage ⟨[], "hi", false⟩ FetchResult.reject "t1" "t2").messages
      = [⟨Role.user, "hi", "t1", false⟩, ⟨Role.assistant, clientErrorText, "t2", true⟩] :=
  (C7_error_turn_appended ⟨[], "hi", false⟩ FetchResult.reject "t1" "t2" rfl rfl).1

/-- C8: `sendMessage` is a no-op exactly under the guard (trimmed input empty,
or a request already in flight); otherwise the dispatch starts from
`afterUserAppend`, which appends exactly one user turn carrying the trimmed
input — session length + 1 before any reply is processed. -/
theorem C8_guard_and_user_append (st : ChatState) (fr : FetchResult) (now1 now2 : String) :
    (sendGuard st = true ↔ jsTrim st.input = "" ∨ st.isLoading = true)
    ∧ (sendGuard st = true → sendMessage st fr now1 now2 = st)
    ∧ (sendGuard st = false →
        (afterUserAppend st now1).messages
          = st.messages ++ [⟨Role.user, jsTrim st.input, now1, false⟩]
        ∧ (afterUserAppend st now1).messages.length = st.messages.length + 1) := by
  refine ⟨?_, ?_, fun _ => ⟨rfl, by simp [afterUserAppend]⟩⟩
  · simp [sendGuard]
  · intro hgd
    simp [sendMessage, hgd]

/-- Witness for C8: whitespace-only input is a no-op; a pending request makes
`sendMessage` a no-op; non-empty idle input appends the one user turn. -/
theorem C8_guard_and_user_append_witness :
    sendMessage ⟨[], "   ", false⟩ FetchResult.reject "t1" "t2" = ⟨[], "   ", false⟩
    ∧ sendMessage ⟨[], "hi", true⟩ FetchResult.reject "t1" "t2" = ⟨[], "hi", true⟩
    ∧ (afterUserAppend ⟨[], "hi", false⟩ "t1").messages
        = [⟨Role.user, "hi", "t1", false⟩] :=
  ⟨(C8_guard_and_user_append ⟨[], "   ", false⟩ FetchResult.reject "t1" "t2").2.1 (by decide),
   (C8_guard_and_user_append ⟨[], "hi", true⟩ FetchResult.reject "t1" "t2").2.1 (by decide),
   ((C8_guard_and_user_append ⟨[], "hi", false⟩ FetchResult.reject "t1" "t2").2.2 (by decide)).1⟩

/-- C9: a 200 response whose body is `{reply: ""}` (no `error` key, reply
present but empty) fails the falsy-reply check `!data.reply`, so the client
appends the synthetic `isError = true` turn with the fixed error text — not an
assistant turn carrying the empty reply. -/
theorem C9_empty_reply_is_error (st : ChatState) (now1 now2 : String)
    (hg : sendGuard st = false) :
    processFetch (FetchResult.resp true ⟨none, some ""⟩) = none
    ∧ (sendMessage st (FetchResult.resp true ⟨none, some ""⟩) now1 now2).messages
        = st.messages ++ [⟨Role.user, jsTrim st.input, now1, false⟩,
                          ⟨Role.assistant, clientErrorText, now2, true⟩] := by
  refine ⟨rfl, ?_⟩
  simp [sendMessage, hg, afterUserAppend, processFetch]

/-- Witness for C9 at `st = ⟨[], "hi", false⟩`. -/
theorem C9_empty_reply_is_error_witness :
    (sendMessage ⟨[], "hi", false⟩ (FetchResult.resp true ⟨none, some ""⟩) "t1" "t2").messages
      = [⟨Role.user, "hi", "t1", false⟩, ⟨Role.assistant, clientErrorText, "t2", true⟩] :=
  (C9_empty_reply_is_error ⟨[], "hi", false⟩ "t1" "t2" rfl).2

/-- C10: a body that fails JSON parsing throws inside the `try`, so the
request lands in the generic `catch`: status 500 with an `{error: ...}` body
carrying the parse error's message — never a 400 validation response. -/
theorem C10_parse_error_500 (e : String)
    (provider : ProviderCall → Except String String) :
    POST (Except.error e) provider = (500, ApiBody.error e) := by
  rfl
